import Mathlib

/-!
Shallow embedding of `src/app.rs` from the ox-tracer repository.

The file models the frame-orchestration layer: the `Runner` structure, its
constructor `Runner::new`, the `App` trait with its default callbacks, the
headless entry point `Runner::run`, and the body of the event-loop closure in
`Runner::run_windowed` as a step function on an explicit loop state.

External collaborators (the phobos library's `initialize`, `PipelineCache`,
`DescriptorCache`, `FrameManager::new_frame`, and the winit event loop) are
modelled by their interfaces: opaque handle structures, explicit rotation
counters, and function parameters supplying their results.  Panics
(`unwrap`, `panic!`) are modelled as explicit terminal outcomes.
-/

namespace OxTracer

/-- Error values: `anyhow::Error` is modelled as its message string. -/
abbrev Err := String

/-- Opaque handle to a phobos `Device` (reference-counted in the source). -/
structure Device where
  id : Nat
deriving DecidableEq

/-- Opaque handle to a phobos `ExecutionManager`. -/
structure ExecutionManager where
  id : Nat
deriving DecidableEq

/-- Opaque handle to a phobos `DefaultAllocator`. -/
structure DefaultAllocator where
  id : Nat
deriving DecidableEq

/-- Opaque handle to a phobos `PhysicalDevice`. -/
structure PhysicalDevice where
  id : Nat
deriving DecidableEq

/-- Opaque handle to a phobos `Surface`. -/
structure Surface where
  id : Nat
deriving DecidableEq

/-- Opaque handle to a phobos `DebugMessenger`. -/
structure DebugMessenger where
  id : Nat
deriving DecidableEq

/-- Opaque handle to a phobos `VkInstance`. -/
structure VkInstance where
  id : Nat
deriving DecidableEq

/-- Opaque handle to a phobos `FrameManager` (the frame-in-flight manager). -/
structure FrameManager where
  id : Nat
deriving DecidableEq

/-- Opaque handle to a phobos `InFlightContext` (the per-frame context handed
to the `frame` callback). -/
structure InFlightContext where
  id : Nat
deriving DecidableEq

/-- Opaque handle to a phobos `ThreadContext` (handed to the headless `run`
callback). -/
structure ThreadContext where
  id : Nat
deriving DecidableEq

/-- Opaque handle to a recorded phobos `CommandBuffer` returned by the
`frame` callback. -/
structure CommandBuffer where
  id : Nat
deriving DecidableEq

/-- Opaque handle to a winit `Window`. -/
structure Window where
  id : Nat
deriving DecidableEq

/-- Opaque handle to a winit `EventLoop`. -/
structure EventLoop where
  id : Nat
deriving DecidableEq

/-- `WindowContext` (src/app.rs:61-64): owns the event loop and the window. -/
structure WindowContext where
  event_loop : EventLoop
  window : Window
deriving DecidableEq

/-- Phobos `PipelineCache`.  Its internals are external to the repository;
modelled from the spec: the cache keeps a rotation counter that
`next_frame` advances once per completed frame.  The construction arguments
of `PipelineCache::new(device, allocator)` are retained as fields. -/
structure PipelineCache where
  device : Device
  allocator : DefaultAllocator
  counter : Nat
deriving DecidableEq

/-- Phobos `PipelineCache::next_frame`: advances the rotation counter. -/
def PipelineCache.next_frame (c : PipelineCache) : PipelineCache :=
  { c with counter := c.counter + 1 }

/-- Phobos `DescriptorCache`.  Modelled from the spec like `PipelineCache`;
constructed by `DescriptorCache::new(device)`. -/
structure DescriptorCache where
  device : Device
  counter : Nat
deriving DecidableEq

/-- Phobos `DescriptorCache::next_frame`: advances the rotation counter. -/
def DescriptorCache.next_frame (c : DescriptorCache) : DescriptorCache :=
  { c with counter := c.counter + 1 }

/-- `VulkanContext` (src/app.rs:81-90).  The source field `instance` is a
Lean keyword and is named `inst` here. -/
structure VulkanContext where
  frame : Option FrameManager
  exec : ExecutionManager
  allocator : DefaultAllocator
  device : Device
  physical_device : PhysicalDevice
  surface : Option Surface
  debug_messenger : DebugMessenger
  inst : VkInstance
deriving DecidableEq

/-- `Context` (src/app.rs:92-98): the read-mostly bundle of cloned handles
handed to application callbacks. -/
structure Context where
  device : Device
  exec : ExecutionManager
  allocator : DefaultAllocator
  pipelines : PipelineCache
  descriptors : DescriptorCache
deriving DecidableEq

/-- `Runner` (src/app.rs:116-120). -/
structure Runner where
  pipelines : PipelineCache
  descriptors : DescriptorCache
  vk : VulkanContext
deriving DecidableEq

/-- `Runner::make_context` (src/app.rs:186-194): clones the shared handles
into a fresh `Context`. -/
def Runner.make_context (r : Runner) : Context :=
  { device := r.vk.device
    exec := r.vk.exec
    allocator := r.vk.allocator
    pipelines := r.pipelines
    descriptors := r.descriptors }

/-- `vk::PresentModeKHR` values used by the settings builder. -/
inductive PresentMode
  | Immediate
  | Mailbox
  | Fifo
  | FifoRelaxed
deriving DecidableEq

/-- Phobos `QueueType`. -/
inductive QueueType
  | Graphics
  | Compute
  | Transfer
deriving DecidableEq

/-- Phobos `QueueRequest` (a queue type tagged dedicated-or-shared). -/
structure QueueRequest where
  dedicated : Bool
  queue_type : QueueType
deriving DecidableEq

/-- Phobos `GPURequirements`: the fields `Runner::new` sets explicitly; the
remaining fields come from `Default::default()` and are not modelled. -/
structure GPURequirements where
  dedicated : Bool
  min_video_memory : Nat
  min_dedicated_video_memory : Nat
  queues : List QueueRequest
deriving DecidableEq

/-- Phobos `AppSettings` as produced by the `AppBuilder` calls in
`Runner::new` (src/app.rs:126-158): version, name, validation flag, present
mode, scratch size, GPU requirements, and the optionally bound window. -/
structure AppSettings where
  version : Nat × Nat × Nat
  name : String
  validation : Bool
  present_mode : PresentMode
  scratch_size : Nat
  gpu : GPURequirements
  window : Option Window
deriving DecidableEq

/-- The settings builder value `Runner::new` constructs before handing it to
the caller-supplied `make_settings` closure (src/app.rs:126-158): version
(1,0,0), the given name, validation enabled, MAILBOX present mode, 1 KiB
scratch size, the fixed GPU requirements, and the window bound when one was
passed. -/
def Runner.initialSettings (name : String) (window : Option WindowContext) : AppSettings :=
  let s : AppSettings :=
    { version := (1, 0, 0)
      name := name
      validation := true
      present_mode := PresentMode.Mailbox
      scratch_size := 1 * 1024
      gpu :=
        { dedicated := false
          min_video_memory := 1 * 1024 * 1024 * 1024
          min_dedicated_video_memory := 1 * 1024 * 1024 * 1024
          queues :=
            [ { dedicated := false, queue_type := QueueType.Graphics }
            , { dedicated := true, queue_type := QueueType.Transfer }
            , { dedicated := true, queue_type := QueueType.Compute } ] }
      window := none }
  match window with
  | none => s
  | some w => { s with window := some w.window }

/-- The tuple returned by the phobos `initialize` function (external to the
repository), as destructured in src/app.rs:161. -/
structure InitResult where
  inst : VkInstance
  physical_device : PhysicalDevice
  surface : Option Surface
  device : Device
  allocator : DefaultAllocator
  exec : ExecutionManager
  frame : Option FrameManager
  debug_messenger : Option DebugMessenger
deriving DecidableEq

/-- Outcome of `Runner::new`: an `Ok(Runner)`, an `Err` propagated with `?`,
or a panic. -/
inductive NewResult
  | ok (r : Runner)
  | err (e : Err)
  | panicked (msg : String)
deriving DecidableEq

/-- `Runner::new` (src/app.rs:123-184).  The external phobos entry points are
passed as parameters: `init` models `initialize(&settings, window.is_none())`,
`pipelineCacheNew` models `PipelineCache::new(device, allocator)` and
`descriptorCacheNew` models `DescriptorCache::new(device)`.  The source first
builds the settings with validation enabled, binds the window when present,
applies the caller's `make_settings`, then destructures the `initialize`
result with a let-else whose pattern requires `Some(debug_messenger)`,
panicking with "Asked for debug messenger but didnt get one" otherwise.
The logger environment setup (src/app.rs:124-125) has no modelled effect. -/
def Runner.new (name : String) (window : Option WindowContext)
    (make_settings : AppSettings → AppSettings)
    (init : AppSettings → Bool → Except Err InitResult)
    (pipelineCacheNew : Device → DefaultAllocator → Except Err PipelineCache)
    (descriptorCacheNew : Device → Except Err DescriptorCache) : NewResult :=
  let settings := make_settings (Runner.initialSettings name window)
  match init settings window.isNone with
  | Except.error e => NewResult.err e
  | Except.ok r =>
    match r.debug_messenger with
    | none => NewResult.panicked "Asked for debug messenger but didnt get one"
    | some debug_messenger =>
      match pipelineCacheNew r.device r.allocator with
      | Except.error e => NewResult.err e
      | Except.ok pipelines =>
        match descriptorCacheNew r.device with
        | Except.error e => NewResult.err e
        | Except.ok descriptors =>
          NewResult.ok
            { pipelines := pipelines
              descriptors := descriptors
              vk :=
                { frame := r.frame
                  exec := r.exec
                  allocator := r.allocator
                  device := r.device
                  physical_device := r.physical_device
                  surface := r.surface
                  debug_messenger := debug_messenger
                  inst := r.inst } }

/-- Default body of `App::frame` (src/app.rs:106-108): bails with this
message. -/
def App.defaultFrame (_ctx : Context) (_ifc : InFlightContext) :
    Except Err CommandBuffer :=
  Except.error "frame() not implemented for non-headless example app"

/-- Default body of `App::run` (src/app.rs:111-113): bails with this
message. -/
def App.defaultRun (_ctx : Context) (_thread : ThreadContext) : Except Err Unit :=
  Except.error "run() not implemented for headless example app"

/-- The `App` trait (src/app.rs:100-114): a required constructor `new` and two
callbacks with the default bodies above.  `S` is the implementing type. -/
structure App (S : Type) where
  new : Context → Except Err S
  frame : S → Context → InFlightContext → Except Err CommandBuffer :=
    fun _ => App.defaultFrame
  run : S → Context → ThreadContext → Except Err Unit :=
    fun _ => App.defaultRun

/-- An application type that overrides neither callback: only `new` is
supplied, both callbacks keep their trait defaults. -/
def minimalApp : App Unit :=
  { new := fun _ => Except.ok () }

/-- Where `Runner::run` ends up: a panic, or entering the `run_windowed`
event loop with the constructed application and the unwrapped window. -/
inductive RunStart (S : Type)
  | panicked (msg : String)
  | windowed (app : S) (wc : WindowContext)
deriving DecidableEq

/-- `Runner::run` (src/app.rs:252-255): constructs the application with
`E::new(self.make_context()).unwrap()` and then calls
`self.run_windowed(app, window.unwrap())`.  Both `unwrap` calls panic with
the standard library messages when they fail. -/
def Runner.run {S : Type} (r : Runner) (E : App S) (window : Option WindowContext) :
    RunStart S :=
  match E.new r.make_context with
  | Except.error _ => RunStart.panicked "called `Result::unwrap()` on an `Err` value"
  | Except.ok app =>
    match window with
    | none => RunStart.panicked "called `Option::unwrap()` on a `None` value"
    | some wc => RunStart.windowed app wc

/-- winit `ControlFlow` (the variants of winit 0.28); `ControlFlow::Exit` is
`ExitWithCode 0`. -/
inductive ControlFlow
  | Poll
  | Wait
  | WaitUntil (t : Nat)
  | ExitWithCode (code : Int)
deriving DecidableEq

/-- Whether a control flow matches the `ControlFlow::ExitWithCode(_)` pattern
of src/app.rs:212. -/
def ControlFlow.isExit : ControlFlow → Bool
  | ControlFlow.ExitWithCode _ => true
  | _ => false

/-- The window-event kinds the closure distinguishes: `CloseRequested` and
everything else. -/
inductive WindowEventKind
  | CloseRequested
  | OtherWindowEvent
deriving DecidableEq

/-- The winit events the closure in `run_windowed` distinguishes.  Window
identifiers are modelled as naturals. -/
inductive Event
  | windowEvent (window_id : Nat) (kind : WindowEventKind)
  | mainEventsCleared
  | redrawRequested (window_id : Nat)
  | otherEvent
deriving DecidableEq

/-- Observable actions of one iteration of the event-loop closure, in
program order: waiting for device idle, dropping the application, requesting
a redraw, invoking the per-frame callback for the k-th time, the
frame-in-flight mechanism recording the k-th submission, advancing either
cache's rotation counter, and panicking. -/
inductive Action
  | waitIdle
  | dropApp
  | requestRedraw
  | invokeFrame (k : Nat)
  | recordSubmission (k : Nat)
  | advancePipelines
  | advanceDescriptors
  | panicAction (msg : Err)
deriving DecidableEq

/-- State of the event-loop closure in `run_windowed` (src/app.rs:205-250):
the captured `self` (the Runner), the `Option<E>` holding the application —
modelled as the number of `frame` invocations performed so far, `none` after
the application has been dropped — the winit control flow, and whether the
process has panicked (a terminal condition: a panicked process executes no
further iterations). -/
structure LoopState where
  runner : Runner
  app : Option Nat
  controlFlow : ControlFlow
  panicked : Bool
deriving DecidableEq

/-- The close-requested branch (src/app.rs:222-235): set `ControlFlow::Exit`,
wait for device idle, take the application out of the option and drop it when
present. -/
def closeBranch (s : LoopState) : LoopState × List Action :=
  let s := { s with controlFlow := ControlFlow.ExitWithCode 0 }
  match s.app with
  | none => (s, [Action.waitIdle])
  | some _ => ({ s with app := none }, [Action.waitIdle, Action.dropApp])

/-- The redraw-requested branch (src/app.rs:239-246) together with
`Runner::frame` (src/app.rs:196-203).  When the application is still present:
`Runner::frame` unwraps `vk.frame` and `vk.surface` (panicking on `None`) and
calls the external `FrameManager::new_frame`, modelled from the spec: it
invokes the per-frame callback once, records the submission on success, and
propagates the callback's error unchanged.  `fr k` supplies the propagated
result of the k-th callback invocation.  On `Ok` the closure then advances
both caches with `next_frame`; on `Err` the `.unwrap()` at src/app.rs:242
panics before any counter is advanced. -/
def redrawBranch (fr : Nat → Except Err CommandBuffer) (s : LoopState) :
    LoopState × List Action :=
  match s.app with
  | none => (s, [])
  | some k =>
    match s.runner.vk.frame, s.runner.vk.surface with
    | some _, some _ =>
      match fr k with
      | Except.ok _ =>
        ({ s with
            app := some (k + 1)
            runner :=
              { s.runner with
                  pipelines := s.runner.pipelines.next_frame
                  descriptors := s.runner.descriptors.next_frame } },
          [Action.invokeFrame k, Action.recordSubmission k,
            Action.advancePipelines, Action.advanceDescriptors])
      | Except.error e =>
        ({ s with app := some (k + 1), panicked := true },
          [Action.invokeFrame k, Action.panicAction e])
    | _, _ =>
      ({ s with panicked := true },
        [Action.panicAction "called `Option::unwrap()` on a `None` value"])

/-- One iteration of the event-loop closure in `run_windowed`
(src/app.rs:209-249).  `oid` is the identifier of the owned window
(`window.id()`).  A panicked process runs no iteration at all.  Otherwise: if
the control flow is `ExitWithCode(_)`, wait for device idle and return early;
else set `ControlFlow::Poll` and dispatch on the event.  Close-requested is
guarded by `window_id == window.id()`; redraw-requested matches any window
identifier (`Event::RedrawRequested(_)`); all other events fall to the
catch-all arm. -/
def eventStep (oid : Nat) (fr : Nat → Except Err CommandBuffer)
    (s : LoopState) (ev : Event) : LoopState × List Action :=
  if s.panicked then (s, [])
  else if s.controlFlow.isExit then (s, [Action.waitIdle])
  else
    let s1 : LoopState := { s with controlFlow := ControlFlow.Poll }
    match ev with
    | Event.windowEvent wid WindowEventKind.CloseRequested =>
      if wid = oid then closeBranch s1 else (s1, [])
    | Event.windowEvent _ WindowEventKind.OtherWindowEvent => (s1, [])
    | Event.mainEventsCleared => (s1, [Action.requestRedraw])
    | Event.redrawRequested _ => redrawBranch fr s1
    | Event.otherEvent => (s1, [])

/-- Iterating the event-loop closure over a list of delivered events,
collecting each iteration's action list. -/
def runLoop (oid : Nat) (fr : Nat → Except Err CommandBuffer) :
    LoopState → List Event → LoopState × List (List Action)
  | s, [] => (s, [])
  | s, ev :: evs =>
    let p := eventStep oid fr s ev
    let q := runLoop oid fr p.1 evs
    (q.1, p.2 :: q.2)

/-- The loop state at entry of `run_windowed` (src/app.rs:205-209): the moved
Runner, `Some(app)` with no callback invocations yet, winit's initial `Poll`
control flow, no panic. -/
def Runner.initLoopState (r : Runner) : LoopState :=
  { runner := r, app := some 0, controlFlow := ControlFlow.Poll, panicked := false }

/-- Occurrences of `dropApp` in one action list. -/
def dropCount : List Action → Nat
  | [] => 0
  | a :: rest => (if a = Action.dropApp then 1 else 0) + dropCount rest

/-- Occurrences of `dropApp` across a whole run's trace. -/
def traceDropCount : List (List Action) → Nat
  | [] => 0
  | al :: rest => dropCount al + traceDropCount rest

/-- Flattening a run's trace into one action sequence. -/
def flatTrace : List (List Action) → List Action
  | [] => []
  | al :: rest => al ++ flatTrace rest

/-- A sample `VulkanContext` with all optional components present. -/
def sampleVk : VulkanContext :=
  { frame := some { id := 0 }
    exec := { id := 0 }
    allocator := { id := 0 }
    device := { id := 0 }
    physical_device := { id := 0 }
    surface := some { id := 0 }
    debug_messenger := { id := 0 }
    inst := { id := 0 } }

/-- A sample windowed `Runner` with both rotation counters at zero. -/
def sampleRunner : Runner :=
  { pipelines := { device := { id := 0 }, allocator := { id := 0 }, counter := 0 }
    descriptors := { device := { id := 0 }, counter := 0 }
    vk := sampleVk }

/-- A per-frame callback result function that always succeeds. -/
def okFrames : Nat → Except Err CommandBuffer :=
  fun _ => Except.ok { id := 0 }

/-- A per-frame callback result function that always fails. -/
def errFrames : Nat → Except Err CommandBuffer :=
  fun _ => Except.error "boom"

/-- A loop state whose control flow is already `ControlFlow::Exit`. -/
def exitLoopState : LoopState :=
  { runner := sampleRunner
    app := some 0
    controlFlow := ControlFlow.ExitWithCode 0
    panicked := false }

/-- A loop state after the application object has been dropped. -/
def droppedLoopState : LoopState :=
  { runner := sampleRunner
    app := none
    controlFlow := ControlFlow.ExitWithCode 0
    panicked := false }

/-- A sample event sequence containing a close request for the owned window
(identifier 0), followed by further iterations and a second close request. -/
def closeScenario : List Event :=
  [ Event.mainEventsCleared
  , Event.redrawRequested 0
  , Event.windowEvent 0 WindowEventKind.CloseRequested
  , Event.mainEventsCleared
  , Event.windowEvent 0 WindowEventKind.CloseRequested
  , Event.redrawRequested 0 ]

/-- A sample `initialize` result carrying no debug messenger. -/
def sampleInitNoMessenger : InitResult :=
  { inst := { id := 0 }
    physical_device := { id := 0 }
    surface := none
    device := { id := 0 }
    allocator := { id := 0 }
    exec := { id := 0 }
    frame := none
    debug_messenger := none }

/-- A model `initialize` that succeeds but yields no debug messenger. -/
def initNoMessenger : AppSettings → Bool → Except Err InitResult :=
  fun _ _ => Except.ok sampleInitNoMessenger

/-- A model `PipelineCache::new` that always succeeds. -/
def pcNewOk : Device → DefaultAllocator → Except Err PipelineCache :=
  fun d a => Except.ok { device := d, allocator := a, counter := 0 }

/-- A model `DescriptorCache::new` that always succeeds. -/
def dcNewOk : Device → Except Err DescriptorCache :=
  fun d => Except.ok { device := d, counter := 0 }

/-- Claim C10: the `App` trait's default callbacks unconditionally return the
"not implemented" errors, so an application type that overrides neither
`frame` nor `run` constructs successfully (its `new` is the only required
member) but fails at the first callback invocation rather than at
construction. -/
theorem app_default_callbacks_error (ctx : Context) (ifc : InFlightContext)
    (tc : ThreadContext) :
    minimalApp.new ctx = Except.ok ()
    ∧ minimalApp.frame () ctx ifc = App.defaultFrame ctx ifc
    ∧ minimalApp.run () ctx tc = App.defaultRun ctx tc
    ∧ App.defaultFrame ctx ifc
        = Except.error "frame() not implemented for non-headless example app"
    ∧ App.defaultRun ctx tc
        = Except.error "run() not implemented for headless example app" :=
  ⟨rfl, rfl, rfl, rfl, rfl⟩

/-- Claim C2 (code evaluation at the failing input): starting the Runner
without a bound window does not reach the headless `run` callback at all —
`Runner::run` panics at `window.unwrap()` right after constructing the
application, so neither callback is ever invoked in headless mode. -/
theorem headless_run_panics_at_unwrap :
    Runner.run sampleRunner minimalApp none
      = RunStart.panicked "called `Option::unwrap()` on a `None` value" := rfl

/-- Claim C5: when device initialization succeeds but yields no debug
messenger, `Runner::new` panics (a programming-contract violation) instead of
returning an `Err`; and the settings builder `Runner::new` constructs always
has validation enabled. -/
theorem new_panics_without_messenger (name : String) (window : Option WindowContext)
    (make_settings : AppSettings → AppSettings)
    (init : AppSettings → Bool → Except Err InitResult)
    (pcNew : Device → DefaultAllocator → Except Err PipelineCache)
    (dcNew : Device → Except Err DescriptorCache) (r : InitResult)
    (hok : init (make_settings (Runner.initialSettings name window)) window.isNone
      = Except.ok r)
    (hnone : r.debug_messenger = none) :
    Runner.new name window make_settings init pcNew dcNew
      = NewResult.panicked "Asked for debug messenger but didnt get one"
    ∧ (Runner.initialSettings name window).validation = true := by
  constructor
  · simp [Runner.new, hok, hnone]
  · cases window <;> rfl

/-- Witness for `new_panics_without_messenger` at a concrete input. -/
theorem new_panics_without_messenger_witness :
    (initNoMessenger (id (Runner.initialSettings "ox" none))
        (Option.isNone (none : Option WindowContext))
      = Except.ok sampleInitNoMessenger)
    ∧ sampleInitNoMessenger.debug_messenger = none
    ∧ (Runner.new "ox" none id initNoMessenger pcNewOk dcNewOk
        = NewResult.panicked "Asked for debug messenger but didnt get one"
      ∧ (Runner.initialSettings "ox" none).validation = true) :=
  ⟨rfl, rfl,
    new_panics_without_messenger "ox" none id initNoMessenger pcNewOk dcNewOk
      sampleInitNoMessenger rfl rfl⟩

/-- Claim C7 fails on the code: an event-loop iteration that observes
main-events-cleared while the control flow is already `ExitWithCode` returns
early after waiting for device idle and does not request a redraw. -/
theorem exit_state_skips_redraw_counterexample :
    (eventStep 0 okFrames exitLoopState Event.mainEventsCleared).2 = [Action.waitIdle]
    ∧ Action.requestRedraw ∉
        (eventStep 0 okFrames exitLoopState Event.mainEventsCleared).2 := by
  decide

/-- Claim C7 as amended: every event-loop iteration that observes
main-events-cleared while the process has not panicked and the control flow
is not already in the exit state requests a redraw of the owned window (and
does nothing else). -/
theorem main_events_cleared_requests_redraw (oid : Nat)
    (fr : Nat → Except Err CommandBuffer) (s : LoopState)
    (hp : s.panicked = false) (hx : s.controlFlow.isExit = false) :
    (eventStep oid fr s Event.mainEventsCleared).2 = [Action.requestRedraw] := by
  simp [eventStep, hp, hx]

/-- Witness for `main_events_cleared_requests_redraw` at a concrete input. -/
theorem main_events_cleared_requests_redraw_witness :
    (Runner.initLoopState sampleRunner).panicked = false
    ∧ (Runner.initLoopState sampleRunner).controlFlow.isExit = false
    ∧ (eventStep 0 okFrames (Runner.initLoopState sampleRunner)
        Event.mainEventsCleared).2 = [Action.requestRedraw] :=
  ⟨rfl, rfl,
    main_events_cleared_requests_redraw 0 okFrames
      (Runner.initLoopState sampleRunner) rfl rfl⟩

/-- Claim C6 fails on the code: the `Event::RedrawRequested(_)` arm ignores
the window identifier, so a redraw-requested event addressed to a window
other than the owned one (here id 1 versus owned id 0) still invokes the
per-frame callback. -/
theorem redraw_other_window_invokes_counterexample :
    (1 : Nat) ≠ 0
    ∧ Action.invokeFrame 0 ∈
        (eventStep 0 okFrames (Runner.initLoopState sampleRunner)
          (Event.redrawRequested 1)).2 := by
  decide

/-- Claim C6 as amended: a redraw-requested event triggers the per-frame
callback whenever the application object is still alive, the process has not
panicked, the control flow is not exiting, and the frame manager and surface
are present — regardless of which window the event addresses. -/
theorem redraw_any_window_invokes (oid : Nat) (fr : Nat → Except Err CommandBuffer)
    (s : LoopState) (wid k : Nat)
    (hp : s.panicked = false) (hx : s.controlFlow.isExit = false)
    (ha : s.app = some k)
    (hf : s.runner.vk.frame.isSome = true)
    (hs : s.runner.vk.surface.isSome = true) :
    Action.invokeFrame k ∈ (eventStep oid fr s (Event.redrawRequested wid)).2 := by
  rcases hF : s.runner.vk.frame with _ | f
  · rw [hF] at hf; simp at hf
  rcases hS : s.runner.vk.surface with _ | su
  · rw [hS] at hs; simp at hs
  cases hfr : fr k <;>
    simp [eventStep, redrawBranch, hp, hx, ha, hF, hS, hfr]

/-- Witness for `redraw_any_window_invokes` at a concrete input. -/
theorem redraw_any_window_invokes_witness :
    ((Runner.initLoopState sampleRunner).panicked = false
    ∧ (Runner.initLoopState sampleRunner).controlFlow.isExit = false
    ∧ (Runner.initLoopState sampleRunner).app = some 0
    ∧ (Runner.initLoopState sampleRunner).runner.vk.frame.isSome = true
    ∧ (Runner.initLoopState sampleRunner).runner.vk.surface.isSome = true)
    ∧ Action.invokeFrame 0 ∈
        (eventStep 0 okFrames (Runner.initLoopState sampleRunner)
          (Event.redrawRequested 5)).2 :=
  ⟨⟨rfl, rfl, rfl, rfl, rfl⟩,
    redraw_any_window_invokes 0 okFrames (Runner.initLoopState sampleRunner)
      5 0 rfl rfl rfl rfl rfl⟩

/-- Whether an event is of one of the three kinds the closure handles:
close-requested, main-events-cleared, or redraw-requested. -/
def isHandledKind : Event → Bool
  | Event.windowEvent _ WindowEventKind.CloseRequested => true
  | Event.mainEventsCleared => true
  | Event.redrawRequested _ => true
  | _ => false

/-- Claim C8: for every event other than close-requested,
main-events-cleared and redraw-requested, the handler leaves the application
object and the whole Runner (both caches and the Vulkan context) unchanged
and invokes no callback; moreover in a live iteration (no panic, control flow
not exiting) it performs no observable action at all. -/
theorem other_events_leave_state_unchanged (oid : Nat)
    (fr : Nat → Except Err CommandBuffer) (s : LoopState) (ev : Event)
    (h : isHandledKind ev = false) :
    (eventStep oid fr s ev).1.app = s.app
    ∧ (eventStep oid fr s ev).1.runner = s.runner
    ∧ (∀ k, Action.invokeFrame k ∉ (eventStep oid fr s ev).2)
    ∧ (s.panicked = false → s.controlFlow.isExit = false →
        (eventStep oid fr s ev).2 = []) := by
  rcases ev with ⟨wid, kind⟩ | _ | wid | _
  · cases kind
    · simp [isHandledKind] at h
    · cases hp : s.panicked <;> cases hx : s.controlFlow.isExit <;>
        simp [eventStep, hp, hx]
  · simp [isHandledKind] at h
  · simp [isHandledKind] at h
  · cases hp : s.panicked <;> cases hx : s.controlFlow.isExit <;>
      simp [eventStep, hp, hx]

/-- Witness for `other_events_leave_state_unchanged` at a concrete input. -/
theorem other_events_leave_state_unchanged_witness :
    isHandledKind Event.otherEvent = false
    ∧ ((eventStep 0 okFrames (Runner.initLoopState sampleRunner)
          Event.otherEvent).1.app = (Runner.initLoopState sampleRunner).app
      ∧ (eventStep 0 okFrames (Runner.initLoopState sampleRunner)
          Event.otherEvent).1.runner = (Runner.initLoopState sampleRunner).runner
      ∧ (∀ k, Action.invokeFrame k ∉
          (eventStep 0 okFrames (Runner.initLoopState sampleRunner)
            Event.otherEvent).2)
      ∧ ((Runner.initLoopState sampleRunner).panicked = false →
          (Runner.initLoopState sampleRunner).controlFlow.isExit = false →
          (eventStep 0 okFrames (Runner.initLoopState sampleRunner)
            Event.otherEvent).2 = [])) :=
  ⟨rfl,
    other_events_leave_state_unchanged 0 okFrames
      (Runner.initLoopState sampleRunner) Event.otherEvent rfl⟩

/-- Claim C4: in every event-loop iteration that renders a frame
successfully (one whose action list records a submission), the iteration's
actions are exactly — and in this order — the callback invocation, the
submission record, one advance of the pipeline-cache rotation counter and
one advance of the descriptor-cache rotation counter; both counters end the
iteration advanced by exactly one.  The Frame Context is active only between
the invocation and the submission record, so neither counter is advanced
while it is still active. -/
theorem success_advances_both_caches_once (oid : Nat)
    (fr : Nat → Except Err CommandBuffer) (s : LoopState) (ev : Event) (k : Nat)
    (h : Action.recordSubmission k ∈ (eventStep oid fr s ev).2) :
    (eventStep oid fr s ev).2
      = [Action.invokeFrame k, Action.recordSubmission k,
          Action.advancePipelines, Action.advanceDescriptors]
    ∧ (eventStep oid fr s ev).1.runner.pipelines.counter
        = s.runner.pipelines.counter + 1
    ∧ (eventStep oid fr s ev).1.runner.descriptors.counter
        = s.runner.descriptors.counter + 1
    ∧ s.app = some k
    ∧ (eventStep oid fr s ev).1.app = some (k + 1) := by
  cases hp : s.panicked with
  | true => rw [show eventStep oid fr s ev = (s, []) by simp [eventStep, hp]] at h; simp at h
  | false =>
  cases hx : s.controlFlow.isExit with
  | true =>
    rw [show eventStep oid fr s ev = (s, [Action.waitIdle]) by
      simp [eventStep, hp, hx]] at h
    simp at h
  | false =>
  rcases ev with ⟨wid, kind⟩ | _ | wid | _
  · cases kind
    · by_cases hw : wid = oid
      · cases ha : s.app <;>
          simp [eventStep, closeBranch, hp, hx, hw, ha] at h
      · simp [eventStep, hp, hx, hw] at h
    · simp [eventStep, hp, hx] at h
  · simp [eventStep, hp, hx] at h
  · cases ha : s.app with
    | none => simp [eventStep, redrawBranch, hp, hx, ha] at h
    | some j =>
      rcases hF : s.runner.vk.frame with _ | f
      · simp [eventStep, redrawBranch, hp, hx, ha, hF] at h
      rcases hS : s.runner.vk.surface with _ | su
      · simp [eventStep, redrawBranch, hp, hx, ha, hF, hS] at h
      cases hfr : fr j with
      | error e => simp [eventStep, redrawBranch, hp, hx, ha, hF, hS, hfr] at h
      | ok cb =>
        have hk : k = j := by
          simp [eventStep, redrawBranch, hp, hx, ha, hF, hS, hfr] at h
          exact h
        subst hk
        refine ⟨?_, ?_, ?_, ?_, ?_⟩ <;>
          simp [eventStep, redrawBranch, hp, hx, ha, hF, hS, hfr,
            PipelineCache.next_frame, DescriptorCache.next_frame]
  · simp [eventStep, hp, hx] at h

/-- Witness for `success_advances_both_caches_once` at a concrete input. -/
theorem success_advances_both_caches_once_witness :
    Action.recordSubmission 0 ∈
      (eventStep 0 okFrames (Runner.initLoopState sampleRunner)
        (Event.redrawRequested 0)).2
    ∧ ((eventStep 0 okFrames (Runner.initLoopState sampleRunner)
          (Event.redrawRequested 0)).2
        = [Action.invokeFrame 0, Action.recordSubmission 0,
            Action.advancePipelines, Action.advanceDescriptors]
      ∧ (eventStep 0 okFrames (Runner.initLoopState sampleRunner)
          (Event.redrawRequested 0)).1.runner.pipelines.counter
          = (Runner.initLoopState sampleRunner).runner.pipelines.counter + 1
      ∧ (eventStep 0 okFrames (Runner.initLoopState sampleRunner)
          (Event.redrawRequested 0)).1.runner.descriptors.counter
          = (Runner.initLoopState sampleRunner).runner.descriptors.counter + 1
      ∧ (Runner.initLoopState sampleRunner).app = some 0
      ∧ (eventStep 0 okFrames (Runner.initLoopState sampleRunner)
          (Event.redrawRequested 0)).1.app = some (0 + 1)) :=
  ⟨by decide,
    success_advances_both_caches_once 0 okFrames
      (Runner.initLoopState sampleRunner) (Event.redrawRequested 0) 0 (by decide)⟩

/-- Helper: a panicked process executes nothing further — the loop state is
frozen and no later iteration produces any action. -/
theorem runLoop_panicked_frozen (oid : Nat) (fr : Nat → Except Err CommandBuffer)
    (s : LoopState) (evs : List Event) (h : s.panicked = true) :
    (runLoop oid fr s evs).1 = s ∧ flatTrace (runLoop oid fr s evs).2 = [] := by
  induction evs with
  | nil => simp [runLoop, flatTrace]
  | cons ev evs ih =>
    have hstep : eventStep oid fr s ev = (s, []) := by simp [eventStep, h]
    simp [runLoop, hstep, flatTrace, ih.1, ih.2]

/-- Claim C3: when the per-frame callback fails on its K-th invocation, the
iteration's actions are the invocation followed by the panic of the
`.unwrap()` — no cache rotation counter is advanced (the whole Runner is
unchanged) — and the process is halted: every later iteration leaves the
state frozen and produces no action, so invocation K+1 never happens and no
frame is retried. -/
theorem frame_error_halts_immediately (oid : Nat)
    (fr : Nat → Except Err CommandBuffer) (s : LoopState) (k wid : Nat)
    (e : Err) (evs : List Event)
    (hp : s.panicked = false) (hx : s.controlFlow.isExit = false)
    (ha : s.app = some k)
    (hf : s.runner.vk.frame.isSome = true)
    (hs : s.runner.vk.surface.isSome = true)
    (he : fr k = Except.error e) :
    (eventStep oid fr s (Event.redrawRequested wid)).2
      = [Action.invokeFrame k, Action.panicAction e]
    ∧ (eventStep oid fr s (Event.redrawRequested wid)).1.runner = s.runner
    ∧ (eventStep oid fr s (Event.redrawRequested wid)).1.panicked = true
    ∧ (runLoop oid fr (eventStep oid fr s (Event.redrawRequested wid)).1 evs).1
        = (eventStep oid fr s (Event.redrawRequested wid)).1
    ∧ flatTrace
        (runLoop oid fr (eventStep oid fr s (Event.redrawRequested wid)).1 evs).2
        = [] := by
  rcases hF : s.runner.vk.frame with _ | f
  · rw [hF] at hf; simp at hf
  rcases hS : s.runner.vk.surface with _ | su
  · rw [hS] at hs; simp at hs
  have hpan : (eventStep oid fr s (Event.redrawRequested wid)).1.panicked = true := by
    simp [eventStep, redrawBranch, hp, hx, ha, hF, hS, he]
  refine ⟨?_, ?_, hpan, (runLoop_panicked_frozen oid fr _ evs hpan).1,
      (runLoop_panicked_frozen oid fr _ evs hpan).2⟩ <;>
    simp [eventStep, redrawBranch, hp, hx, ha, hF, hS, he]

/-- Witness for `frame_error_halts_immediately` at a concrete input. -/
theorem frame_error_halts_immediately_witness :
    ((Runner.initLoopState sampleRunner).panicked = false
    ∧ (Runner.initLoopState sampleRunner).controlFlow.isExit = false
    ∧ (Runner.initLoopState sampleRunner).app = some 0
    ∧ (Runner.initLoopState sampleRunner).runner.vk.frame.isSome = true
    ∧ (Runner.initLoopState sampleRunner).runner.vk.surface.isSome = true
    ∧ errFrames 0 = Except.error "boom")
    ∧ ((eventStep 0 errFrames (Runner.initLoopState sampleRunner)
          (Event.redrawRequested 0)).2
        = [Action.invokeFrame 0, Action.panicAction "boom"]
      ∧ (eventStep 0 errFrames (Runner.initLoopState sampleRunner)
          (Event.redrawRequested 0)).1.runner
          = (Runner.initLoopState sampleRunner).runner
      ∧ (eventStep 0 errFrames (Runner.initLoopState sampleRunner)
          (Event.redrawRequested 0)).1.panicked = true
      ∧ (runLoop 0 errFrames
          (eventStep 0 errFrames (Runner.initLoopState sampleRunner)
            (Event.redrawRequested 0)).1
          [Event.redrawRequested 0, Event.mainEventsCleared]).1
          = (eventStep 0 errFrames (Runner.initLoopState sampleRunner)
              (Event.redrawRequested 0)).1
      ∧ flatTrace (runLoop 0 errFrames
          (eventStep 0 errFrames (Runner.initLoopState sampleRunner)
            (Event.redrawRequested 0)).1
          [Event.redrawRequested 0, Event.mainEventsCleared]).2 = []) :=
  ⟨⟨rfl, rfl, rfl, rfl, rfl, rfl⟩,
    frame_error_halts_immediately 0 errFrames (Runner.initLoopState sampleRunner)
      0 0 "boom" [Event.redrawRequested 0, Event.mainEventsCleared]
      rfl rfl rfl rfl rfl rfl⟩

/-- Claim C9: once the application object has been dropped, every later
event-loop iteration renders no frame: the application stays dropped, the
whole Runner — both rotation counters included — is unchanged, and the
per-frame callback is never invoked, whatever events (exit-state iterations
or stray redraw requests included) are delivered. -/
theorem dropped_app_renders_no_frames (oid : Nat)
    (fr : Nat → Except Err CommandBuffer) (s : LoopState) (evs : List Event)
    (h : s.app = none) :
    (runLoop oid fr s evs).1.app = none
    ∧ (runLoop oid fr s evs).1.runner = s.runner
    ∧ ∀ k, Action.invokeFrame k ∉ flatTrace (runLoop oid fr s evs).2 := by
  induction evs generalizing s with
  | nil => simp [runLoop, flatTrace, h]
  | cons ev evs ih =>
    have hstep : (eventStep oid fr s ev).1.app = none
        ∧ (eventStep oid fr s ev).1.runner = s.runner
        ∧ ∀ k, Action.invokeFrame k ∉ (eventStep oid fr s ev).2 := by
      cases hp : s.panicked with
      | true => simp [eventStep, hp, h]
      | false =>
        cases hx : s.controlFlow.isExit with
        | true => simp [eventStep, hp, hx, h]
        | false =>
          rcases ev with ⟨wid, kind⟩ | _ | wid | _
          · cases kind
            · by_cases hw : wid = oid <;>
                simp [eventStep, closeBranch, hp, hx, hw, h]
            · simp [eventStep, hp, hx, h]
          · simp [eventStep, hp, hx, h]
          · simp [eventStep, redrawBranch, hp, hx, h]
          · simp [eventStep, hp, hx, h]
    obtain ⟨h1, h2, h3⟩ := hstep
    obtain ⟨g1, g2, g3⟩ := ih _ h1
    refine ⟨?_, ?_, ?_⟩
    · simpa [runLoop] using g1
    · simp only [runLoop]
      rw [g2, h2]
    · intro k
      simp only [runLoop, flatTrace, List.mem_append]
      rintro (hc | hc)
      · exact h3 k hc
      · exact g3 k hc

/-- Witness for `dropped_app_renders_no_frames` at a concrete input. -/
theorem dropped_app_renders_no_frames_witness :
    droppedLoopState.app = none
    ∧ ((runLoop 0 okFrames droppedLoopState
          [Event.redrawRequested 0, Event.mainEventsCleared, Event.otherEvent]).1.app
          = none
      ∧ (runLoop 0 okFrames droppedLoopState
          [Event.redrawRequested 0, Event.mainEventsCleared, Event.otherEvent]).1.runner
          = droppedLoopState.runner
      ∧ ∀ k, Action.invokeFrame k ∉ flatTrace (runLoop 0 okFrames droppedLoopState
          [Event.redrawRequested 0, Event.mainEventsCleared, Event.otherEvent]).2) :=
  ⟨rfl,
    dropped_app_renders_no_frames 0 okFrames droppedLoopState
      [Event.redrawRequested 0, Event.mainEventsCleared, Event.otherEvent] rfl⟩

/-- Helper: whenever an iteration's action list contains `dropApp`, that
list is exactly `waitIdle` followed by `dropApp` — the device-idle wait
always comes immediately before the drop, within the same iteration. -/
theorem eventStep_dropApp_shape (oid : Nat) (fr : Nat → Except Err CommandBuffer)
    (s : LoopState) (ev : Event)
    (h : Action.dropApp ∈ (eventStep oid fr s ev).2) :
    (eventStep oid fr s ev).2 = [Action.waitIdle, Action.dropApp] := by
  cases hp : s.panicked with
  | true =>
    rw [show eventStep oid fr s ev = (s, []) by simp [eventStep, hp]] at h
    simp at h
  | false =>
  cases hx : s.controlFlow.isExit with
  | true =>
    rw [show eventStep oid fr s ev = (s, [Action.waitIdle]) by
      simp [eventStep, hp, hx]] at h
    simp at h
  | false =>
  rcases ev with ⟨wid, kind⟩ | _ | wid | _
  · cases kind
    · by_cases hw : wid = oid
      · cases ha : s.app with
        | none => simp [eventStep, closeBranch, hp, hx, hw, ha] at h
        | some k => simp [eventStep, closeBranch, hp, hx, hw, ha]
      · simp [eventStep, hp, hx, hw] at h
    · simp [eventStep, hp, hx] at h
  · simp [eventStep, hp, hx] at h
  · cases ha : s.app with
    | none => simp [eventStep, redrawBranch, hp, hx, ha] at h
    | some j =>
      rcases hF : s.runner.vk.frame with _ | f
      · simp [eventStep, redrawBranch, hp, hx, ha, hF] at h
      rcases hS : s.runner.vk.surface with _ | su
      · simp [eventStep, redrawBranch, hp, hx, ha, hF, hS] at h
      cases hfr : fr j <;>
        simp [eventStep, redrawBranch, hp, hx, ha, hF, hS, hfr] at h
  · simp [eventStep, hp, hx] at h

/-- Helper: lifting `eventStep_dropApp_shape` to whole runs. -/
theorem runLoop_dropApp_shape (oid : Nat) (fr : Nat → Except Err CommandBuffer)
    (evs : List Event) (s : LoopState) :
    ∀ al ∈ (runLoop oid fr s evs).2, Action.dropApp ∈ al →
      al = [Action.waitIdle, Action.dropApp] := by
  induction evs generalizing s with
  | nil => simp [runLoop]
  | cons ev evs ih =>
    intro al hal hdrop
    simp only [runLoop, List.mem_cons] at hal
    rcases hal with hal | hal
    · subst hal
      exact eventStep_dropApp_shape oid fr s ev hdrop
    · exact ih _ al hal hdrop

/-- Helper: once the control flow is in the exit state (and no panic has
happened), the loop state never changes again and no iteration drops the
application. -/
theorem runLoop_exit_frozen (oid : Nat) (fr : Nat → Except Err CommandBuffer)
    (s : LoopState) (evs : List Event)
    (hx : s.controlFlow.isExit = true) (hp : s.panicked = false) :
    (runLoop oid fr s evs).1 = s
    ∧ traceDropCount (runLoop oid fr s evs).2 = 0 := by
  induction evs with
  | nil => simp [runLoop, traceDropCount]
  | cons ev evs ih =>
    have hstep : eventStep oid fr s ev = (s, [Action.waitIdle]) := by
      simp [eventStep, hp, hx]
    simp [runLoop, hstep, traceDropCount, dropCount, ih.1, ih.2]

/-- Helper: `isExit` holds on `ExitWithCode`. -/
@[simp] theorem isExit_exitWithCode (c : Int) :
    (ControlFlow.ExitWithCode c).isExit = true := rfl

/-- Helper: `isExit` fails on `Poll`. -/
@[simp] theorem isExit_poll : ControlFlow.Poll.isExit = false := rfl

/-- Helper: a close-requested event for the owned window, processed while
the application is alive, emits exactly the idle wait and the drop, leaves
the control flow in the exit state and does not panic. -/
theorem eventStep_close_drops (oid : Nat) (fr : Nat → Except Err CommandBuffer)
    (s : LoopState) (k : Nat)
    (ha : s.app = some k) (hx : s.controlFlow.isExit = false)
    (hp : s.panicked = false) :
    (eventStep oid fr s (Event.windowEvent oid WindowEventKind.CloseRequested)).2
      = [Action.waitIdle, Action.dropApp]
    ∧ (eventStep oid fr s
        (Event.windowEvent oid WindowEventKind.CloseRequested)).1.controlFlow.isExit
        = true
    ∧ (eventStep oid fr s
        (Event.windowEvent oid WindowEventKind.CloseRequested)).1.panicked
        = false := by
  refine ⟨?_, ?_, ?_⟩ <;>
    simp [eventStep, closeBranch, hp, hx, ha]

/-- Helper: a live iteration on any event other than close-requested for the
owned window never drops the application, and either panics or stays live
with the application still present. -/
theorem eventStep_live_not_close (oid : Nat) (fr : Nat → Except Err CommandBuffer)
    (s : LoopState) (ev : Event) (k : Nat)
    (ha : s.app = some k) (hx : s.controlFlow.isExit = false)
    (hp : s.panicked = false)
    (hev : ev ≠ Event.windowEvent oid WindowEventKind.CloseRequested) :
    dropCount (eventStep oid fr s ev).2 = 0
    ∧ ((eventStep oid fr s ev).1.panicked = true
      ∨ (∃ k2, (eventStep oid fr s ev).1.app = some k2
          ∧ (eventStep oid fr s ev).1.controlFlow.isExit = false
          ∧ (eventStep oid fr s ev).1.panicked = false)) := by
  rcases ev with ⟨wid, kind⟩ | _ | wid | _
  · cases kind
    · have hw : wid ≠ oid := fun hcontra => hev (by rw [hcontra])
      refine ⟨?_, Or.inr ⟨k, ?_, ?_, ?_⟩⟩ <;>
        simp [eventStep, dropCount, hp, hx, hw, ha]
    · refine ⟨?_, Or.inr ⟨k, ?_, ?_, ?_⟩⟩ <;>
        simp [eventStep, dropCount, hp, hx, ha]
  · refine ⟨?_, Or.inr ⟨k, ?_, ?_, ?_⟩⟩ <;>
      simp [eventStep, dropCount, hp, hx, ha]
  · rcases hF : s.runner.vk.frame with _ | f
    · refine ⟨?_, Or.inl ?_⟩ <;>
        simp [eventStep, redrawBranch, dropCount, hp, hx, ha, hF]
    rcases hS : s.runner.vk.surface with _ | su
    · refine ⟨?_, Or.inl ?_⟩ <;>
        simp [eventStep, redrawBranch, dropCount, hp, hx, ha, hF, hS]
    cases hfr : fr k with
    | ok cb =>
      refine ⟨?_, Or.inr ⟨k + 1, ?_, ?_, ?_⟩⟩ <;>
        simp [eventStep, redrawBranch, dropCount, hp, hx, ha, hF, hS, hfr]
    | error e =>
      refine ⟨?_, Or.inl ?_⟩ <;>
        simp [eventStep, redrawBranch, dropCount, hp, hx, ha, hF, hS, hfr]
  · refine ⟨?_, Or.inr ⟨k, ?_, ?_, ?_⟩⟩ <;>
      simp [eventStep, dropCount, hp, hx, ha]

/-- Helper: a live run whose events contain a close request for the owned
window and whose final state has not panicked drops the application exactly
once. -/
theorem runLoop_dropCount_one (oid : Nat) (fr : Nat → Except Err CommandBuffer) :
    ∀ (evs : List Event) (s : LoopState) (k : Nat),
      s.app = some k → s.controlFlow.isExit = false → s.panicked = false →
      Event.windowEvent oid WindowEventKind.CloseRequested ∈ evs →
      (runLoop oid fr s evs).1.panicked = false →
      traceDropCount (runLoop oid fr s evs).2 = 1 := by
  intro evs
  induction evs with
  | nil =>
    intro s k _ _ _ hmem _
    simp at hmem
  | cons ev evs ih =>
    intro s k ha hx hp hmem hfin
    by_cases hev : ev = Event.windowEvent oid WindowEventKind.CloseRequested
    · subst hev
      obtain ⟨hacts, hex, hpa⟩ := eventStep_close_drops oid fr s k ha hx hp
      have hrest := runLoop_exit_frozen oid fr _ evs hex hpa
      simp [runLoop, traceDropCount, hacts, hrest.2, dropCount]
    · have hmem2 : Event.windowEvent oid WindowEventKind.CloseRequested ∈ evs := by
        rcases List.mem_cons.mp hmem with h | h
        · exact absurd h.symm hev
        · exact h
      obtain ⟨hdc, hlive⟩ := eventStep_live_not_close oid fr s ev k ha hx hp hev
      have hfin2 : (runLoop oid fr (eventStep oid fr s ev).1 evs).1.panicked
          = false := by
        simpa [runLoop] using hfin
      rcases hlive with hpan | ⟨k2, ha2, hx2, hp2⟩
      · exfalso
        have hfrozen := (runLoop_panicked_frozen oid fr _ evs hpan).1
        rw [hfrozen] at hfin2
        rw [hfin2] at hpan
        exact Bool.false_ne_true hpan
      · have hone := ih _ k2 ha2 hx2 hp2 hmem2 hfin2
        simp [runLoop, traceDropCount, hdc, hone]

/-- Claim C1: in every run from the initial loop state that receives a
window-close event for the owned window and never panics, each iteration
that drops the application object first waits for device idle — its action
list is exactly the idle wait immediately followed by the drop — and the
application object is dropped exactly once across the whole run, even when
further close events or event-loop iterations occur afterwards. -/
theorem close_waits_idle_then_drops_once (oid : Nat)
    (fr : Nat → Except Err CommandBuffer) (r : Runner) (evs : List Event)
    (hclose : Event.windowEvent oid WindowEventKind.CloseRequested ∈ evs)
    (hfin : (runLoop oid fr (Runner.initLoopState r) evs).1.panicked = false) :
    (∀ al ∈ (runLoop oid fr (Runner.initLoopState r) evs).2,
        Action.dropApp ∈ al → al = [Action.waitIdle, Action.dropApp])
    ∧ traceDropCount (runLoop oid fr (Runner.initLoopState r) evs).2 = 1 :=
  ⟨runLoop_dropApp_shape oid fr evs (Runner.initLoopState r),
    runLoop_dropCount_one oid fr evs (Runner.initLoopState r) 0 rfl rfl rfl
      hclose hfin⟩

/-- Witness for `close_waits_idle_then_drops_once` at a concrete run. -/
theorem close_waits_idle_then_drops_once_witness :
    Event.windowEvent 0 WindowEventKind.CloseRequested ∈ closeScenario
    ∧ (runLoop 0 okFrames (Runner.initLoopState sampleRunner)
        closeScenario).1.panicked = false
    ∧ ((∀ al ∈ (runLoop 0 okFrames (Runner.initLoopState sampleRunner)
            closeScenario).2,
          Action.dropApp ∈ al → al = [Action.waitIdle, Action.dropApp])
      ∧ traceDropCount (runLoop 0 okFrames (Runner.initLoopState sampleRunner)
          closeScenario).2 = 1) :=
  ⟨by decide, by decide,
    close_waits_idle_then_drops_once 0 okFrames sampleRunner closeScenario
      (by decide) (by decide)⟩

end OxTracer
